import Mathlib

/-!
Shallow embedding of the chat-with-DB repository (main.py, main_flask.py,
src/model.py, src/database.py) for checking the natural-language
specification against the code.

Modelling conventions:
* The generative-AI oracle is opaque.  Each `generate_content` call site in
  `model.py` consumes one completion; a completion is modelled as
  `Except Unit String` where `Except.error ()` stands for a raised exception
  and `Except.ok t` for a completion whose `.text` is `t`.  The prompt
  strings only influence which completion the oracle produces, so the
  completions for the fixed sequence of call sites are passed in as an
  `OracleEnv` record, one field per call site.
* The PostgreSQL collaborator (`database.py`) is modelled by its documented
  contract: `execute_query : String -> Option DbResult`, returning fetched
  rows for SELECT statements, an affected-row count otherwise, and `none`
  when the query fails (the wrapper catches its own exceptions).
* Python string operations are modelled by kernel-reducible functions on
  the character list: `str.strip` by `pyStrip`, `str.split(",")` by
  `pySplitComma`, `str.upper`/`str.lower` by `pyUpper`/`pyLower`, `in` by
  `strContains`, and the f-string rendering of a Python list of strings
  by `pyListRepr` (faithful for names without quotes or escapes).
* Mutation of `self.context` / `self.history` / `self.is_format_response`
  is modelled by explicit state passing of `LLMState`.
-/

namespace ChatDB

/-- A single quote character, used by the Python repr of string lists. -/
def sq : String := "\x27"

/-- The characters removed by Python `str.strip` (ASCII whitespace). -/
def pyIsSpace (c : Char) : Bool :=
  c = ' ' || c = '\t' || c = '\n' || c = '\r' || c.toNat = 11 || c.toNat = 12

/-- Python `str.strip` on the character list. -/
def pyStripList (l : List Char) : List Char :=
  ((l.dropWhile pyIsSpace).reverse.dropWhile pyIsSpace).reverse

/-- Python `str.strip`: drop leading and trailing whitespace. -/
def pyStrip (s : String) : String := ⟨pyStripList s.data⟩

/-- Helper for Python `str.split(",")`: walk the characters, cutting at
every comma; the accumulator holds the current piece reversed. -/
def splitCommaAux : List Char → List Char → List String
  | [], acc => [⟨acc.reverse⟩]
  | c :: cs, acc =>
    if c = ',' then ⟨acc.reverse⟩ :: splitCommaAux cs [] else splitCommaAux cs (c :: acc)

/-- Python `str.split(",")`: the empty string yields a one-element list
containing the empty string. -/
def pySplitComma (s : String) : List String := splitCommaAux s.data []

/-- Python `str.upper` (ASCII). -/
def pyUpper (s : String) : String := ⟨s.data.map Char.toUpper⟩

/-- Python `str.lower` (ASCII). -/
def pyLower (s : String) : String := ⟨s.data.map Char.toLower⟩

/-- Occurrence of `pat` as a contiguous sublist: Python `pat in s`. -/
def containsList (pat : List Char) : List Char → Bool
  | [] => pat.isEmpty
  | c :: rest => pat.isPrefixOf (c :: rest) || containsList pat rest

/-- Separator-joined concatenation, Python `sep.join(xs)`. -/
def joinSep (sep : String) : List String → String
  | [] => ""
  | [x] => x
  | x :: xs => x ++ sep ++ joinSep sep xs

/-- Left fold of string concatenation, modelling the accumulation loop
`result += chunk.text` of the streamed formatter. -/
def concatChunks (cs : List String) : String :=
  cs.foldl (fun acc c => acc ++ c) ""

/-- Python repr of one string (no escaping needed for plain identifiers). -/
def pyStrRepr (s : String) : String := sq ++ s ++ sq

/-- Python repr of a list of strings, as an f-string renders it:
for example a two-element list renders as [\x27a\x27, \x27b\x27]. -/
def pyListRepr (xs : List String) : String :=
  "[" ++ joinSep ", " (xs.map pyStrRepr) ++ "]"

/-- Python f-string rendering of an optional list (None renders as None). -/
def pyOptListRepr : Option (List String) → String
  | some xs => pyListRepr xs
  | none => "None"

/-- Substring containment, Python `pat in s`. -/
def strContains (s pat : String) : Bool := containsList pat.data s.data

/-- Role tag of one history record (`model.py` appends dicts whose `type`
key is either `user` or `clarification`). -/
inductive TurnType where
  | user
  | clarification
deriving DecidableEq

/-- One record of `self.history`: `{type, value}` for user turns and
`{type, field, value}` for clarification turns. -/
structure Turn where
  type : TurnType
  field : Option String
  value : String
deriving DecidableEq

/-- `self.context`: the mutable slot dictionary with keys `table`,
`columns`, `conditions`; a key being absent is modelled by `none`. -/
structure Context where
  table : Option String
  columns : Option (List String)
  conditions : Option String
deriving DecidableEq

/-- The mutable state of an `LLM` instance: `self.context`, `self.history`
and `self.is_format_response`. -/
structure LLMState where
  context : Context
  history : List Turn
  is_format_response : Bool
deriving DecidableEq

/-- Result of `Database.execute_query` (`database.py`): fetched rows for a
SELECT, or the affected-row count for other statements. -/
inductive DbResult where
  | rows (rs : List (List String))
  | count (n : Int)
deriving DecidableEq

/-- The storage collaborator: SQL text to result, `none` on failure
(the wrapper in `database.py` absorbs its own exceptions). -/
def Db : Type := String → Option DbResult

/-- What `LLM.handle_database_query` can hand back to its caller: a plain
message / clarification string, or the raw row list from execution
(Python returns the list itself in that case). -/
inductive QueryResult where
  | rows (rs : List (List String))
  | msg (s : String)
deriving DecidableEq

/-- One completion per `generate_content` call site in `model.py`;
`Except.error ()` models the call raising an exception. -/
structure OracleEnv where
  classifyResp : Except Unit String
  genericResp : Except Unit String
  tableResp : Except Unit String
  colsResp : Except Unit String
  condResp : Except Unit String
  sqlResp : Except Unit String
  formatChunks : Except Unit (List String)

/-- `LLM.clear_history_context` (model.py lines 158-167): empties the
context dictionary and the history list; the format flag is untouched. -/
def clear_history_context (st : LLMState) : LLMState :=
  { st with context := ⟨none, none, none⟩, history := [] }

/-- `LLM.check_user_query` (model.py lines 169-212): on an oracle
exception returns the string Invalid; otherwise both branches of the
source `if result in [Valid, Table_Names]` return the stripped
completion verbatim. -/
def check_user_query (classifyResp : Except Unit String) : String :=
  match classifyResp with
  | Except.error _ => "Invalid"
  | Except.ok text =>
    let result := pyStrip text
    if result = "Valid" ∨ result = "Table_Names" then result else result

/-- The catalog query sent by `LLM.get_available_tables`
(string whitespace condensed). -/
def tableListQuery : String :=
  "SELECT table_name FROM information_schema.tables WHERE table_schema = "
    ++ sq ++ "public" ++ sq ++ ";"

/-- `LLM.get_available_tables` (model.py lines 214-232): flattens the row
list; a failed query (None result) makes the comprehension raise, which
the except-branch turns into the empty list. -/
def get_available_tables (db : Db) : List String :=
  match db tableListQuery with
  | some (DbResult.rows result) => result.flatten
  | _ => []

/-- Prefix of the column-introspection SQL of `LLM.get_columns_for_table`,
up to the opening quote of the interpolated table name
(whitespace condensed; the triple space before = is in the source). -/
def colsQueryPre : String :=
  "SELECT column_name FROM information_schema.columns WHERE table_schema = "
    ++ sq ++ "public" ++ sq ++ " AND table_name   = " ++ sq

/-- Suffix of the column-introspection SQL after the table name. -/
def colsQueryPost : String := sq ++ ";"

/-- The column-introspection SQL of `LLM.get_columns_for_table`
(model.py lines 285-292): the table name is interpolated directly into
the statement by the f-string. -/
def columnsQuery (table_name : String) : String :=
  colsQueryPre ++ table_name ++ colsQueryPost

/-- `LLM.get_columns_for_table` (model.py lines 271-295). -/
def get_columns_for_table (db : Db) (table_name : String) : List String :=
  match db (columnsQuery table_name) with
  | some (DbResult.rows result) => result.flatten
  | _ => []

/-- `LLM.match_table_name` (model.py lines 234-269): returns the stripped
completion verbatim unless it equals the sentinel None-string.  The
conversation history and table list only appear in the prompt. -/
def match_table_name (tableResp : Except Unit String) :
    Except Unit (Option String) :=
  tableResp.map fun text =>
    if pyStrip text ≠ "None" then some (pyStrip text) else none

/-- `LLM.match_columns` (model.py lines 297-330): the source returns
`response.text.strip().split(",")` unconditionally, so the result is
always a list (never Python None); an empty completion yields a
one-element list containing the empty string. -/
def match_columns (colsResp : Except Unit String) :
    Except Unit (Option (List String)) :=
  colsResp.map fun text => some (pySplitComma (pyStrip text))

/-- `LLM.extract_conditions` (model.py lines 332-365): the source returns
`response.text.strip()` unconditionally, so the result is always a
string (never Python None); the table and columns of the context only
appear in the prompt. -/
def extract_conditions (condResp : Except Unit String) :
    Except Unit (Option String) :=
  condResp.map fun text => some (pyStrip text)

/-- The slot name passed to `LLM.ask_for_clarification`; the source
dispatches on the literal strings table, columns, conditions (any other
string would fall through and return Python None, which no caller
exercises). -/
inductive SlotField where
  | table
  | columns
  | conditions
deriving DecidableEq

/-- `LLM.ask_for_clarification` (model.py lines 367-402): builds the
clarification text for the slot and the history record it appends;
the caller is responsible for appending the record. -/
def ask_for_clarification : SlotField → Option (List String) → String × Turn
  | SlotField.table, available_data =>
    let clarification :=
      "I couldn\x27t understand the table you are referring to. Here are the available tables: "
        ++ pyOptListRepr available_data ++ ". Could you please specify the table?"
    (clarification, ⟨TurnType.clarification, some "table", clarification⟩)
  | SlotField.columns, available_data =>
    let clarification :=
      "I couldn\x27t identify the columns you are referring to. Available columns: "
        ++ pyOptListRepr available_data ++ ". Please specify."
    (clarification, ⟨TurnType.clarification, some "columns", clarification⟩)
  | SlotField.conditions, _ =>
    let clarification :=
      "I couldn\x27t identify the conditions for your query. Could you clarify?"
    (clarification, ⟨TurnType.clarification, some "conditions", clarification⟩)

/-- `LLM.generate_sql_query` (model.py lines 404-439): reads
`self.context[table]` (a KeyError, modelled as an exception, if the
key is absent); the naive SELECT string and the slot values appear only
in the validation prompt, and the returned value is the stripped oracle
completion unless it equals the sentinel None-string. -/
def generate_sql_query (ctx : Context) (sqlResp : Except Unit String) :
    Except Unit (Option String) :=
  match ctx.table with
  | none => Except.error ()
  | some _ =>
    sqlResp.map fun text =>
      if pyStrip text ≠ "None" then some (pyStrip text) else none

/-- `LLM.is_valid_sql` (model.py lines 441-451): the uppercased statement
must contain both SELECT and FROM. -/
def is_valid_sql (sql_query : String) : Bool :=
  strContains (pyUpper sql_query) "SELECT" && strContains (pyUpper sql_query) "FROM"

/-- `LLM.execute_sql_query` (model.py lines 453-472): None propagates,
a list is returned as is, and a row count becomes a success message. -/
def execute_sql_query (db : Db) (sql_query : String) : Option QueryResult :=
  match db sql_query with
  | none => none
  | some (DbResult.rows results) => some (QueryResult.rows results)
  | some (DbResult.count n) =>
    some (QueryResult.msg
      ("Query executed successfully, " ++ toString n ++ " rows affected."))

/-- The context and history update of step 1 of
`LLM.handle_database_query` (model.py lines 105-110) once a truthy table
name has been matched: a table different from the current one clears
context and history, then installs the new table; the same table leaves
the state untouched. -/
def apply_table_match (st : LLMState) (table_name : String) : LLMState :=
  if st.context.table ≠ some table_name then
    let st2 := clear_history_context st
    { st2 with context := { st2.context with table := some table_name } }
  else st

/-- The no-match branch of step 1 of `LLM.handle_database_query`
(model.py lines 111-113): return the table clarification and append its
history record. -/
def table_clarify (st : LLMState) (available_tables : List String) :
    Except Unit QueryResult × LLMState :=
  let pr := ask_for_clarification SlotField.table (some available_tables)
  (Except.ok (QueryResult.msg pr.1), { st with history := st.history ++ [pr.2] })

/-- Steps 4-5 of `LLM.handle_database_query` (model.py lines 134-156):
SQL synthesis, the shallow validity check, execution, and the flag set
on success; every failure clears context and history. -/
def synth (st : LLMState) (db : Db) (o : OracleEnv) :
    Except Unit QueryResult × LLMState :=
  match generate_sql_query st.context o.sqlResp with
  | Except.error e => (Except.error e, st)
  | Except.ok none =>
    (Except.ok (QueryResult.msg
      "The SQL query could not be generated. Please start your query with more information."),
      clear_history_context st)
  | Except.ok (some sql_query) =>
    if ¬ is_valid_sql sql_query then
      (Except.ok (QueryResult.msg
        "The generated SQL query is not valid. Please provide more information to generate a valid SQL query."),
        clear_history_context st)
    else
      match execute_sql_query db sql_query with
      | none => (Except.ok (QueryResult.msg "No results found."), clear_history_context st)
      | some results => (Except.ok results, { st with is_format_response := true })

/-- Step 3 of `LLM.handle_database_query` (model.py lines 126-132): the
conditions slot is filled from the oracle when absent.  The `is None`
guard of the source is the `Except.ok none` arm; it is unreachable
because `extract_conditions` always yields a string. -/
def step3 (st : LLMState) (db : Db) (o : OracleEnv) : Except Unit QueryResult × LLMState :=
  match st.context.conditions with
  | some _ => synth st db o
  | none =>
    match extract_conditions o.condResp with
    | Except.error e => (Except.error e, st)
    | Except.ok none =>
      let pr := ask_for_clarification SlotField.conditions none
      (Except.ok (QueryResult.msg pr.1), { st with history := st.history ++ [pr.2] })
    | Except.ok (some conditions) =>
      synth { st with context := { st.context with conditions := some conditions } } db o

/-- Step 2 of `LLM.handle_database_query` (model.py lines 116-123): the
columns slot is filled from the oracle when absent.  Reading
`self.context[table]` with the key absent would be a KeyError, modelled
as an exception; the `is None` guard of the source is the
`Except.ok none` arm, unreachable because `match_columns` always yields
a list. -/
def step2 (st : LLMState) (db : Db) (o : OracleEnv) : Except Unit QueryResult × LLMState :=
  match st.context.columns with
  | some _ => step3 st db o
  | none =>
    match st.context.table with
    | none => (Except.error (), st)
    | some tbl =>
      let available_columns := get_columns_for_table db tbl
      match match_columns o.colsResp with
      | Except.error e => (Except.error e, st)
      | Except.ok none =>
        let pr := ask_for_clarification SlotField.columns (some available_columns)
        (Except.ok (QueryResult.msg pr.1), { st with history := st.history ++ [pr.2] })
      | Except.ok (some columns) =>
        step3 { st with context := { st.context with columns := some columns } } db o

/-- `LLM.handle_database_query` (model.py lines 68-156): append the user
turn, then step 1 (table matching; the Python truthiness test
`if table_name:` also sends the empty string to the clarification
branch), then steps 2-5 via `step2`. -/
def handle_database_query (st : LLMState) (db : Db) (o : OracleEnv)
    (user_query : String) : Except Unit QueryResult × LLMState :=
  let st1 := { st with history := st.history ++ [⟨TurnType.user, none, user_query⟩] }
  let available_tables := get_available_tables db
  match match_table_name o.tableResp with
  | Except.error e => (Except.error e, st1)
  | Except.ok none => table_clarify st1 available_tables
  | Except.ok (some table_name) =>
    if table_name = "" then table_clarify st1 available_tables
    else step2 (apply_table_match st1 table_name) db o

/-- The fixed apology returned for the Invalid status. -/
def invalid_msg : String :=
  "I\x27m sorry, I couldn\x27t generate the response for your query. Please try later. thank you."

/-- `LLM.process_user_query` (model.py lines 43-66): dispatch on the
classifier status; a status outside the four recognized strings falls
off the end of the if-chain, which in Python returns None, modelled as
`Except.ok none`. -/
def process_user_query (st : LLMState) (db : Db) (o : OracleEnv)
    (user_query : String) : Except Unit (Option QueryResult) × LLMState :=
  let status := check_user_query o.classifyResp
  if status = "Table_Names" then
    let available_tables := get_available_tables db
    let st2 := clear_history_context st
    (Except.ok (some (QueryResult.msg ("Available tables: " ++ pyListRepr available_tables))), st2)
  else if status = "Invalid" then
    (Except.ok (some (QueryResult.msg invalid_msg)), st)
  else if status = "Valid" then
    match handle_database_query st db o user_query with
    | (Except.error e, st2) => (Except.error e, st2)
    | (Except.ok r, st2) => (Except.ok (some r), st2)
  else if status = "Generic" then
    match o.genericResp with
    | Except.error e => (Except.error e, st)
    | Except.ok text => (Except.ok (some (QueryResult.msg (pyStrip text))), st)
  else
    (Except.ok none, st)

/-- `LLM.format_response` (model.py lines 474-507): reads
`self.context[table]` (KeyError when absent, modelled as an exception)
to fetch the schema for the prompt, then folds the streamed completion
chunks into one string. -/
def format_response (st : LLMState) (db : Db)
    (chunks : Except Unit (List String)) : Except Unit String :=
  match st.context.table with
  | none => Except.error ()
  | some tbl =>
    let _schema := get_columns_for_table db tbl
    chunks.map fun cs => concatChunks cs

/-- Outcome of one iteration of the CLI loop in `main.py`: the exit
branch (which clears the session and breaks), a reply (the raw response
plus, when the format flag is set, the formatted text that was printed),
or an uncaught exception. -/
inductive CliOutcome where
  | exited (st : LLMState)
  | replied (response : Option QueryResult) (formatted : Option String) (st : LLMState)
  | raised (st : LLMState)
deriving DecidableEq

/-- One iteration of the `while True` loop of `main` (main.py lines
39-63): the case-insensitive exit check runs first; otherwise the query
is processed and, when `is_format_response` is set, the response is run
through `format_response`. -/
def main_iteration (st : LLMState) (db : Db) (o : OracleEnv)
    (user_query : String) : CliOutcome :=
  if pyLower user_query = "exit" then CliOutcome.exited (clear_history_context st)
  else
    match process_user_query st db o user_query with
    | (Except.error _, st2) => CliOutcome.raised st2
    | (Except.ok response, st2) =>
      if st2.is_format_response then
        match format_response st2 db o.formatChunks with
        | Except.error _ => CliOutcome.raised st2
        | Except.ok text => CliOutcome.replied response (some text) st2
      else CliOutcome.replied response none st2

/-- The follow-up hint of both front ends: present exactly when the
table key is in the context. -/
def hint (st : LLMState) : String :=
  match st.context.table with
  | some t =>
    "(Hint: Hey, I am currently working with the table: " ++ t
      ++ "). If this is not the table you want to work with, please let me know."
  | none => ""

/-- Outcome of a POST to the `/chat` endpoint of `main_flask.py`:
the 400 no-query error, the goodbye branch, a JSON reply (raw response,
optional formatted text, hint), or an uncaught exception. -/
inductive ChatOutcome where
  | noQuery
  | goodbye (st : LLMState)
  | reply (response : Option QueryResult) (formatted : Option String)
      (hintText : String) (st : LLMState)
  | raised (st : LLMState)
deriving DecidableEq

/-- The POST branch of `chat` (main_flask.py lines 27-53): `none` models
a request body without a query key; the Python truthiness test
`if not user_query` also rejects the empty string; the case-insensitive
exit check clears the session and answers Goodbye; otherwise the query
is processed as in the CLI. -/
def chat (st : LLMState) (db : Db) (o : OracleEnv)
    (user_query : Option String) : ChatOutcome :=
  match user_query with
  | none => ChatOutcome.noQuery
  | some q =>
    if q = "" then ChatOutcome.noQuery
    else if pyLower q = "exit" then ChatOutcome.goodbye (clear_history_context st)
    else
      match process_user_query st db o q with
      | (Except.error _, st2) => ChatOutcome.raised st2
      | (Except.ok response, st2) =>
        if st2.is_format_response then
          match format_response st2 db o.formatChunks with
          | Except.error _ => ChatOutcome.raised st2
          | Except.ok text => ChatOutcome.reply response (some text) (hint st2) st2
        else ChatOutcome.reply response none (hint st2) st2

/-! Concrete fixtures used by the witnesses and counterexamples: a small
database with tables orders and customers, and oracle environments for
particular runs. -/

/-- A fresh session state: empty context, empty history, flag unset. -/
def freshState : LLMState := ⟨⟨none, none, none⟩, [], false⟩

/-- A session state in which all three slots are already resolved. -/
def resolvedState : LLMState :=
  ⟨⟨some "orders", some ["id"], some "id>5"⟩, [], false⟩

/-- A sample storage collaborator: two tables, columns for orders, and
row answers for the SQL statements exercised by the concrete runs. -/
def dbSample : Db := fun q =>
  if q = tableListQuery then some (DbResult.rows [["orders"], ["customers"]])
  else if q = columnsQuery "orders" then some (DbResult.rows [["id"], ["amount"]])
  else if q = "SELECT id FROM orders WHERE id>5;" then some (DbResult.rows [["7"], ["9"]])
  else if q = "SELECT id FROM orders WHERE ;" then some (DbResult.rows [["1"]])
  else none

/-- Oracle completions for a fully successful data-query run against the
table orders. -/
def oSuccess : OracleEnv :=
  { classifyResp := Except.ok "Valid"
    genericResp := Except.ok ""
    tableResp := Except.ok "orders"
    colsResp := Except.ok "id"
    condResp := Except.ok "id>5"
    sqlResp := Except.ok "SELECT id FROM orders WHERE id>5;"
    formatChunks := Except.ok ["Here are ", "your rows."] }

/-- Oracle completions where classification says Generic and the generic
answer is a fixed greeting. -/
def oGenericHello : OracleEnv :=
  { oSuccess with
    classifyResp := Except.ok "Generic"
    genericResp := Except.ok "Hello there." }

/-- Oracle completions where classification says Table_Names. -/
def oTableNames : OracleEnv :=
  { oSuccess with classifyResp := Except.ok "Table_Names" }

/-- Oracle completions where the condition-extraction completion is the
empty string (everything else succeeds). -/
def oEmptyCond : OracleEnv :=
  { oSuccess with
    condResp := Except.ok ""
    sqlResp := Except.ok "SELECT id FROM orders WHERE ;" }

/-- Oracle completions where the column-matching completion is the empty
string (everything else succeeds). -/
def oEmptyCols : OracleEnv :=
  { oSuccess with colsResp := Except.ok "" }

/-- Oracle completions where the table-matching completion is whitespace
only, so its stripped form is the empty string. -/
def oWhitespaceTable : OracleEnv :=
  { oSuccess with tableResp := Except.ok "   " }

/-- Oracle completions where the table-matching completion is the
sentinel None-string. -/
def oNoTable : OracleEnv :=
  { oSuccess with tableResp := Except.ok "None" }

/-! Theorems settling the claims. -/

/-- Claim C5: a resolution step in which the oracle matches the utterance
to a table different from the currently resolved one results in a context
whose table is the new table and whose columns and conditions slots are
absent (and the turn history is wiped; the format flag is untouched). -/
theorem c5_table_switch_resets (st : LLMState) (t : String)
    (h : st.context.table ≠ some t) :
    apply_table_match st t = ⟨⟨some t, none, none⟩, [], st.is_format_response⟩ := by
  simp [apply_table_match, clear_history_context, if_pos h]

/-- Witness for C5 at the concrete state of the spec scenario:
table orders with columns [id] and conditions id>5 resolved, switched to
customers. -/
theorem c5_table_switch_resets_witness :
    apply_table_match
      ⟨⟨some "orders", some ["id"], some "id>5"⟩, [⟨TurnType.user, none, "hi"⟩], false⟩
      "customers" = ⟨⟨some "customers", none, none⟩, [], false⟩ :=
  c5_table_switch_resets
    ⟨⟨some "orders", some ["id"], some "id>5"⟩, [⟨TurnType.user, none, "hi"⟩], false⟩
    "customers" (by decide)

/-- Claim C6 counterexample: the classifier does not restrict its result
to the four outcomes; a completion reading banana is returned verbatim,
and an all-whitespace completion is returned as the empty string rather
than being mapped to the unclassifiable outcome. -/
theorem c6_counterexample :
    check_user_query (Except.ok "banana") = "banana"
    ∧ check_user_query (Except.ok " ") = ""
    ∧ ("banana" ≠ "Table_Names" ∧ "banana" ≠ "Valid"
        ∧ "banana" ≠ "Generic" ∧ "banana" ≠ "Invalid") :=
  ⟨rfl, rfl, by decide⟩

/-- Claim C6 (amended): the classifier maps an oracle exception to the
Invalid outcome, but on a successful oracle call it returns the stripped
completion verbatim, whatever string that is; malformed or empty
completions are passed through rather than mapped to unclassifiable. -/
theorem c6_classifier_passthrough (r : Except Unit String) :
    check_user_query r =
      match r with
      | Except.error _ => "Invalid"
      | Except.ok s => pyStrip s := by
  cases r <;> simp [check_user_query]

/-- Claim C9: whenever the classifier step yields a stripped completion
other than the four recognized status strings, the top-level
process_user_query falls off its if-chain and returns Python None
(no response string), leaving the state untouched. -/
theorem c9_unrecognized_status_returns_none
    (st : LLMState) (db : Db) (o : OracleEnv) (q s : String)
    (hcl : o.classifyResp = Except.ok s)
    (h1 : pyStrip s ≠ "Table_Names") (h2 : pyStrip s ≠ "Invalid")
    (h3 : pyStrip s ≠ "Valid") (h4 : pyStrip s ≠ "Generic") :
    process_user_query st db o q = (Except.ok none, st) := by
  simp only [process_user_query, check_user_query, hcl, ite_self,
    if_neg h1, if_neg h2, if_neg h3, if_neg h4]

/-- Witness for C9: the oracle completion banana makes
process_user_query return none. -/
theorem c9_unrecognized_status_returns_none_witness :
    process_user_query freshState dbSample
      { oSuccess with classifyResp := Except.ok "banana" } "q" =
      (Except.ok none, freshState) :=
  c9_unrecognized_status_returns_none freshState dbSample
    { oSuccess with classifyResp := Except.ok "banana" } "q" "banana"
    rfl (by decide) (by decide) (by decide) (by decide)

/-- Claim C2 counterexample: a whitespace-only (but non-empty) query is
not rejected by the HTTP endpoint; it is processed like any other query,
and the result depends on the oracle completion (so an oracle call is
made), rather than being the fixed no-query error. -/
theorem c2_counterexample :
    chat freshState dbSample oGenericHello (some " ") =
      ChatOutcome.reply (some (QueryResult.msg "Hello there.")) none "" freshState
    ∧ chat freshState dbSample oTableNames (some " ") =
      ChatOutcome.reply
        (some (QueryResult.msg ("Available tables: " ++ pyListRepr ["orders", "customers"])))
        none "" freshState
    ∧ chat freshState dbSample oGenericHello (some " ") ≠ ChatOutcome.noQuery :=
  ⟨rfl, rfl, by decide⟩

/-- Claim C2 (amended): only a missing or empty query is rejected by the
HTTP endpoint; the rejection is the fixed no-query outcome, produced for
every state and every oracle environment (hence without reading either,
so no state mutation and no oracle call). -/
theorem c2_empty_query_rejected (st : LLMState) (db : Db) (o : OracleEnv) :
    chat st db o none = ChatOutcome.noQuery
    ∧ chat st db o (some "") = ChatOutcome.noQuery :=
  ⟨rfl, rfl⟩

/-- Claim C7 counterexample: the HTTP variant does reserve the literal
exit (case-insensitively): it clears the session and answers Goodbye
instead of processing the query. -/
theorem c7_counterexample :
    chat resolvedState dbSample oSuccess (some "EXIT") =
      ChatOutcome.goodbye ⟨⟨none, none, none⟩, [], false⟩ := rfl

/-- Claim C7 (amended): the literal exit, case-insensitively, is a
session-termination signal in both variants: the CLI loop breaks and the
HTTP endpoint answers Goodbye, each after clearing context and history. -/
theorem c7_exit_both_variants (st : LLMState) (db : Db) (o : OracleEnv)
    (q : String) (h : pyLower q = "exit") :
    main_iteration st db o q = CliOutcome.exited (clear_history_context st)
    ∧ chat st db o (some q) = ChatOutcome.goodbye (clear_history_context st) := by
  have hq : q ≠ "" := by
    intro he
    subst he
    exact absurd h (by decide)
  constructor
  · simp [main_iteration, h]
  · simp [chat, hq, h]

/-- Witness for C7 at the concrete query Exit. -/
theorem c7_exit_both_variants_witness :
    main_iteration resolvedState dbSample oSuccess "Exit" =
      CliOutcome.exited (clear_history_context resolvedState)
    ∧ chat resolvedState dbSample oSuccess (some "Exit") =
      ChatOutcome.goodbye (clear_history_context resolvedState) :=
  c7_exit_both_variants resolvedState dbSample oSuccess "Exit" (by decide)

/-- Claim C1 counterexample: a fully successful end-to-end resolution
(classifier Valid, table, columns and conditions resolved, SQL
synthesized, validated, executed and formatted) after which the context
still holds all three slots and the history still holds the user turn;
neither is empty after the top-level call returns. -/
theorem c1_counterexample :
    main_iteration resolvedState dbSample oSuccess "show my orders" =
      CliOutcome.replied (some (QueryResult.rows [["7"], ["9"]])) (some "Here are your rows.")
        ⟨⟨some "orders", some ["id"], some "id>5"⟩,
          [⟨TurnType.user, none, "show my orders"⟩], true⟩
    ∧ (⟨some "orders", some ["id"], some "id>5"⟩ : Context) ≠ ⟨none, none, none⟩
    ∧ ([⟨TurnType.user, none, "show my orders"⟩] : List Turn) ≠ ([] : List Turn) :=
  ⟨rfl, by decide, by decide⟩

/-- Claim C1 (amended): on a successful end-to-end resolution the session
state is not cleared: with the table matched again and columns and
conditions already resolved, the success path returns the rows, keeps
the fully resolved context, appends the user turn to the history and
only sets the format flag.  (Only the failure paths of synthesis,
validation and execution, and a table switch, clear the state.) -/
theorem c1_success_preserves_context
    (st : LLMState) (db : Db) (o : OracleEnv) (q t s T D : String) (C : List String)
    (rs : List (List String))
    (hctx : st.context = ⟨some T, some C, some D⟩)
    (htr : o.tableResp = Except.ok t) (ht : pyStrip t = T)
    (hT0 : T ≠ "None") (hT1 : T ≠ "")
    (hsr : o.sqlResp = Except.ok s) (hs : pyStrip s ≠ "None")
    (hv : is_valid_sql (pyStrip s) = true)
    (hdb : db (pyStrip s) = some (DbResult.rows rs)) :
    handle_database_query st db o q =
      (Except.ok (QueryResult.rows rs),
        ⟨⟨some T, some C, some D⟩,
          st.history ++ [⟨TurnType.user, none, q⟩], true⟩) := by
  simp [handle_database_query, match_table_name, apply_table_match, step2, step3,
    synth, generate_sql_query, execute_sql_query, table_clarify,
    htr, hsr, hdb, hctx, ht, hT0, hT1, hs, hv, Except.map]

/-- Witness for C1 (amended) at the concrete success run. -/
theorem c1_success_preserves_context_witness :
    handle_database_query resolvedState dbSample oSuccess "show my orders" =
      (Except.ok (QueryResult.rows [["7"], ["9"]]),
        ⟨⟨some "orders", some ["id"], some "id>5"⟩,
          resolvedState.history ++ [⟨TurnType.user, none, "show my orders"⟩], true⟩) :=
  c1_success_preserves_context resolvedState dbSample oSuccess "show my orders"
    "orders" "SELECT id FROM orders WHERE id>5;" "orders" "id>5" ["id"] [["7"], ["9"]]
    rfl rfl rfl (by decide) (by decide) rfl (by decide) (by decide) rfl

/-- Claim C3: evaluation at the failing input.  With table orders and
columns [id] already resolved, an empty condition-extraction completion
is stored verbatim as the conditions slot (the empty string, not the
tautology and not a clarification): extract_conditions returns the
stripped completion unconditionally, so the `is None` guard of the
caller never fires and resolution proceeds to synthesis and execution
with the empty conditions slot in the context. -/
theorem c3_empty_conditions_stored :
    handle_database_query ⟨⟨some "orders", some ["id"], none⟩, [], false⟩
      dbSample oEmptyCond "show ids" =
      (Except.ok (QueryResult.rows [["1"]]),
        ⟨⟨some "orders", some ["id"], some ""⟩,
          [⟨TurnType.user, none, "show ids"⟩], true⟩)
    ∧ extract_conditions (Except.ok "") = Except.ok (some "") :=
  ⟨rfl, rfl⟩

/-- Claim C4: evaluation at the failing input.  On a fresh session whose
utterance matches table orders, an empty column-matching completion is
split into the one-element list holding the empty string and stored as
the columns slot (match_columns never returns Python None, so the
`is None` guard of the caller never fires and no clarification listing
the available columns is emitted); resolution proceeds with that slot. -/
theorem c4_empty_columns_stored :
    handle_database_query freshState dbSample oEmptyCols "show everything" =
      (Except.ok (QueryResult.rows [["7"], ["9"]]),
        ⟨⟨some "orders", some [""], some "id>5"⟩, [], true⟩)
    ∧ match_columns (Except.ok "") = Except.ok (some [""]) :=
  ⟨rfl, rfl⟩

/-- Claim C8: two consecutive utterances that both fail table matching
(the oracle answers the sentinel None-string both times) against the
same storage collaborator yield the very same clarification text, built
from the same enumerated table list, and leave the table slot of the
context unresolved after both calls (the whole context is untouched). -/
theorem c8_failed_match_idempotent
    (st : LLMState) (db : Db) (o1 o2 : OracleEnv) (q1 q2 s1 s2 : String)
    (h1 : o1.tableResp = Except.ok s1) (hs1 : pyStrip s1 = "None")
    (h2 : o2.tableResp = Except.ok s2) (hs2 : pyStrip s2 = "None")
    (hT : st.context.table = none) :
    ∃ st1 st2 : LLMState,
      handle_database_query st db o1 q1 =
        (Except.ok (QueryResult.msg
          (ask_for_clarification SlotField.table (some (get_available_tables db))).1), st1)
      ∧ handle_database_query st1 db o2 q2 =
        (Except.ok (QueryResult.msg
          (ask_for_clarification SlotField.table (some (get_available_tables db))).1), st2)
      ∧ st1.context = st.context ∧ st2.context = st.context
      ∧ st1.context.table = none ∧ st2.context.table = none := by
  refine
    ⟨{ st with history := st.history ++ [⟨TurnType.user, none, q1⟩]
        ++ [(ask_for_clarification SlotField.table (some (get_available_tables db))).2] },
      { st with history := st.history ++ [⟨TurnType.user, none, q1⟩]
        ++ [(ask_for_clarification SlotField.table (some (get_available_tables db))).2]
        ++ [⟨TurnType.user, none, q2⟩]
        ++ [(ask_for_clarification SlotField.table (some (get_available_tables db))).2] },
      ?_, ?_, ?_, ?_, ?_, ?_⟩ <;>
    simp [handle_database_query, match_table_name, table_clarify,
      h1, h2, hs1, hs2, hT, Except.map]

/-- Witness for C8 at concrete inputs: a fresh session and two
utterances whose table matching fails against the sample database. -/
theorem c8_failed_match_idempotent_witness :
    ∃ st1 st2 : LLMState,
      handle_database_query freshState dbSample oNoTable "show me everything" =
        (Except.ok (QueryResult.msg
          (ask_for_clarification SlotField.table
            (some (get_available_tables dbSample))).1), st1)
      ∧ handle_database_query st1 dbSample oNoTable "still unclear" =
        (Except.ok (QueryResult.msg
          (ask_for_clarification SlotField.table
            (some (get_available_tables dbSample))).1), st2)
      ∧ st1.context = freshState.context ∧ st2.context = freshState.context
      ∧ st1.context.table = none ∧ st2.context.table = none :=
  c8_failed_match_idempotent freshState dbSample oNoTable oNoTable
    "show me everything" "still unclear" "None" "None" rfl rfl rfl rfl rfl

/-- Claim C10 counterexample: an all-whitespace table-matching
completion strips to the empty string, which differs from the sentinel
None-string, and yet the table slot is not set to it: the Python
truthiness test sends the empty string to the clarification branch, so
the final context still has no table. -/
theorem c10_counterexample :
    pyStrip "   " ≠ "None"
    ∧ handle_database_query freshState dbSample oWhitespaceTable "list" =
        (Except.ok (QueryResult.msg
          (ask_for_clarification SlotField.table (some ["orders", "customers"])).1),
          ⟨⟨none, none, none⟩,
            [⟨TurnType.user, none, "list"⟩,
              (ask_for_clarification SlotField.table (some ["orders", "customers"])).2],
            false⟩) :=
  ⟨by decide, rfl⟩

/-- Claim C10 (amended): whenever the stripped table-matching completion
is nonempty and differs from the sentinel None-string, it is returned
verbatim by match_table_name and installed verbatim as the table slot by
the step-1 update — no hypothesis about the available-table list occurs
anywhere, i.e. membership is never checked — and the resolved name is
interpolated directly between the quotes of the column-introspection
SQL statement. -/
theorem c10_verbatim_no_membership_check (t : String)
    (h0 : pyStrip t ≠ "None") (_h1 : pyStrip t ≠ "") :
    match_table_name (Except.ok t) = Except.ok (some (pyStrip t))
    ∧ (∀ st : LLMState, (apply_table_match st (pyStrip t)).context.table = some (pyStrip t))
    ∧ columnsQuery (pyStrip t) = colsQueryPre ++ pyStrip t ++ colsQueryPost := by
  refine ⟨by simp [match_table_name, h0, Except.map], ?_, rfl⟩
  intro st
  by_cases hc : st.context.table ≠ some (pyStrip t)
  · simp [apply_table_match, clear_history_context, if_pos hc]
  · push_neg at hc
    simp [apply_table_match, hc]

/-- Witness for C10 at the concrete name bogus_table, which is not among
the tables of the sample database. -/
theorem c10_verbatim_no_membership_check_witness :
    (match_table_name (Except.ok "bogus_table") = Except.ok (some "bogus_table")
      ∧ (∀ st : LLMState,
          (apply_table_match st "bogus_table").context.table = some "bogus_table")
      ∧ columnsQuery "bogus_table" = colsQueryPre ++ "bogus_table" ++ colsQueryPost)
    ∧ ("bogus_table" ∈ get_available_tables dbSample → False) :=
  ⟨c10_verbatim_no_membership_check "bogus_table" (by decide) (by decide), by decide⟩

end ChatDB
